import Mathlib

/-!
# Shallow embedding of the esdb-tui view controller and derived-metrics engines

This file embeds, in Lean 4, the parts of the `esdb-tui` terminal dashboard
that the verified properties talk about:

* `src/views/mod.rs`        — the session controller (`Context`), its key
  dispatch, refresh and init paths;
* `src/views/dashboard.rs`  — the dashboard view and its `Model::from` parser
  (identical to `Stats::from` in `src/main.rs`);
* `src/views/stream_browser.rs` — the stream-browser view state machine;
* `src/views/projections.rs`    — the projections view;
* `src/models/projections.rs`   — the projections catalog engine;
* `src/models/persistent_subscriptions.rs` — the persistent-subscriptions
  catalog engine and `compute_behind_metrics`;
* `src/models/monitoring.rs`    — the cluster-health engine.

Modelling conventions:

* Rust `f64`/`f32` values are modelled as `ℚ`.  In this model a quotient is
  "non-finite" exactly when the divisor is `0` (the only source of NaN/∞ in
  the embedded formulas), and `x / 0 = 0` in `ℚ`; wherever the source checks
  `is_finite` the embedding tests the divisor against `0` instead.
* Rust machine integers are modelled as `Nat` (unsigned) / `Int` (signed).
  Arithmetic that can overflow or underflow in Rust (where it is a checked
  panic) is modelled through explicit `Option`-returning helpers.
* A Rust panic (`unwrap`, `expect`, out-of-bounds indexing, checked-arithmetic
  overflow) is modelled as `none` : fallible embedded functions return
  `Option` and `none` means the call aborts.
* `HashMap`/`BTreeMap` values are modelled as association lists with the
  `entry`/`insert`/`remove` semantics made explicit (`alLookup`, `alInsert`,
  `alRemove`).  Iteration order of a `HashMap` being unspecified in Rust, the
  input of `Model::from` is taken as an already-ordered list of pairs.  A
  `BTreeMap` iterates in sorted key order while the association list keeps
  insertion order; every property proved here is insensitive to iteration
  order (all statements go through `alLookup`, or through `length`/`isSome`).
* Network fetches (`block_on` blocks) are external collaborators: their
  outcome for one controller call is supplied by an `Env` record of
  `Except`-valued oracles, mirroring §6 of the specification.
-/

namespace EsdbTui

/-! ## Association-list primitives (BTreeMap / HashMap semantics) -/

/-- Lookup in an association list: the value bound to the first occurrence of
the key, mirroring map lookup (keys are kept unique by `alInsert`). -/
def alLookup {α : Type} : List (String × α) → String → Option α
  | [], _ => none
  | (k', v') :: rest, k => if k' = k then some v' else alLookup rest k

/-- Insert-or-replace, mirroring `map.insert` / the write-back of a mutated
`entry`: replaces the value at the key when present, appends otherwise. -/
def alInsert {α : Type} : List (String × α) → String → α → List (String × α)
  | [], k, v => [(k, v)]
  | (k', v') :: rest, k, v =>
    if k' = k then (k, v) :: rest else (k', v') :: alInsert rest k v

/-- Remove a key, mirroring `map.remove` (first occurrence; keys are unique). -/
def alRemove {α : Type} : List (String × α) → String → List (String × α)
  | [], _ => []
  | (k', v') :: rest, k => if k' = k then rest else (k', v') :: alRemove rest k

/-- Split a character list at every occurrence of the separator
(`str::split(sep)` semantics: splitting the empty string yields one empty
piece). -/
def splitOnChar (sep : Char) : List Char → List (List Char)
  | [] => [[]]
  | c :: cs =>
    let rest := splitOnChar sep cs
    if c = sep then [] :: rest
    else
      match rest with
      | [] => [[c]]
      | r :: rs => (c :: r) :: rs

/-- Rust `str::split(sep: char).collect::<Vec<_>>()`. -/
def rustSplit (s : String) (sep : Char) : List String :=
  (splitOnChar sep s.data).map String.mk

/-! ## Checked machine arithmetic (debug-semantics Rust: overflow panics) -/

/-- Rust `usize` subtraction `a - b`: panics (`none`) on underflow. -/
def usizeSub (a b : Nat) : Option Nat :=
  if b ≤ a then some (a - b) else none

/-- Rust `u16` addition `a + b`: panics (`none`) on overflow past `65535`. -/
def u16Add (a b : Nat) : Option Nat :=
  if a + b < 65536 then some (a + b) else none

/-- `f64::round` rounds half away from zero (unlike `round` in Mathlib,
which rounds half up). -/
def rustRound (q : ℚ) : ℤ :=
  if q < 0 then -⌊-q + 1 / 2⌋ else ⌊q + 1 / 2⌋

/-! ## External collaborator types (eventstore client crate) -/

/-- Error taxonomy of the client crate, as needed by the controller
(`eventstore::Error`); §7 of the spec. -/
inductive EsError
  | transport
  | resourceNotFound
  | malformed
  deriving DecidableEq, Repr

/-- A global `$all` position (`eventstore::Position`): commit/prepare pair. -/
structure Position where
  commit : Nat
  prepare : Nat
  deriving DecidableEq, Repr

/-- `eventstore::RevisionOrPosition`. -/
inductive RevisionOrPosition
  | revision (v : Nat)
  | position (p : Position)
  deriving DecidableEq, Repr

end EsdbTui

namespace EsdbTui

/-! ## `src/models/persistent_subscriptions.rs` -/

/-- The statistics block of `eventstore::PersistentSubscriptionInfo`
(only the fields the engine reads). -/
structure PsStats where
  total_items : Nat
  total_in_flight_messages : Nat
  average_per_second : ℚ
  last_known_position : Option Position
  last_checkpointed_position : Option Position
  last_known_event_revision : Option Nat
  last_checkpointed_event_revision : Option Nat
  deriving DecidableEq, Repr

/-- `eventstore::PersistentSubscriptionInfo<RevisionOrPosition>`; the
connection list is reduced to the entries the engine counts. -/
structure PersistentSubscriptionInfo where
  event_source : String
  group_name : String
  status : String
  connections : List Unit
  stats : PsStats
  deriving DecidableEq, Repr

/-- Catalog entry `PersistentSubscription`
(src/models/persistent_subscriptions.rs, lines 5-18). -/
structure PersistentSubscription where
  stream_name : String := ""
  group_name : String := ""
  total_items_processed : ℤ := 0
  connection_count : ℤ := 0
  last_known_event_position : Option RevisionOrPosition := none
  last_checkpointed_event_position : Option RevisionOrPosition := none
  in_flight_messages : ℤ := 0
  status : String := ""
  behind_by_messages : ℤ := 0
  behind_by_time : ℚ := 0
  average_items_per_second : ℚ := 0
  deriving DecidableEq, Repr

/-- `compute_behind_metrics`
(src/models/persistent_subscriptions.rs, lines 46-97).  For the `$all`
source, behind-by-time is the sentinel `-1` and behind-by-messages is `0`
or `-1`; for a named stream the revision-difference formula applies, with
the `is_finite` clamp of the source expressed as the `average_per_second = 0`
test (the only non-finite case of the quotient in this rational model). -/
def compute_behind_metrics (current : PersistentSubscription)
    (info : PersistentSubscriptionInfo) : PersistentSubscription :=
  if info.event_source = "$all" then
    { current with
      behind_by_time := -1
      last_known_event_position :=
        info.stats.last_known_position.map RevisionOrPosition.position
      last_checkpointed_event_position :=
        info.stats.last_checkpointed_position.map RevisionOrPosition.position
      behind_by_messages :=
        if info.stats.last_known_position = info.stats.last_checkpointed_position
        then 0 else -1 }
  else
    let last_checkpointed_rev := info.stats.last_checkpointed_event_revision.getD 0
    let last_known_event_rev := info.stats.last_known_event_revision.getD 0
    let behind_by_messages : ℤ :=
      ((last_known_event_rev : ℤ) - (last_checkpointed_rev : ℤ)) + 1
    let behind_by_time : ℚ :=
      (rustRound (((behind_by_messages : ℚ) / info.stats.average_per_second) * 100) : ℚ)
        / 100
    let behind_by_time :=
      if info.stats.average_per_second = 0 then 0 else behind_by_time
    { current with
      last_known_event_position :=
        info.stats.last_known_event_revision.map RevisionOrPosition.revision
      last_checkpointed_event_position :=
        info.stats.last_checkpointed_event_revision.map RevisionOrPosition.revision
      behind_by_messages := behind_by_messages
      behind_by_time := behind_by_time }

/-- The persistent-subscriptions catalog
(src/models/persistent_subscriptions.rs, lines 20-22). -/
structure PersistentSubscriptions where
  inner : List (String × PersistentSubscription) := []
  deriving Repr

/-- `PersistentSubscriptions::update`
(src/models/persistent_subscriptions.rs, lines 25-39): for each incoming
descriptor, fetch-or-create the entry keyed `streamName/groupName`, apply
`compute_behind_metrics`, then overwrite the displayed fields. -/
def PersistentSubscriptions.update (s : PersistentSubscriptions)
    (ps : List PersistentSubscriptionInfo) : PersistentSubscriptions :=
  { inner :=
      ps.foldl (fun inner p =>
        let key := p.event_source ++ "/" ++ p.group_name
        let entry := (alLookup inner key).getD ({ } : PersistentSubscription)
        let entry := compute_behind_metrics entry p
        let entry :=
          { entry with
            stream_name := p.event_source
            group_name := p.group_name
            total_items_processed := (p.stats.total_items : ℤ)
            connection_count := (p.connections.length : ℤ)
            in_flight_messages := (p.stats.total_in_flight_messages : ℤ)
            status := p.status
            average_items_per_second := p.stats.average_per_second }
        alInsert inner key entry) s.inner }

/-! ## `src/models/projections.rs` -/

/-- One snapshot record `eventstore::ProjectionStatus`
(the fields the engine and views read). -/
structure ProjectionStatus where
  name : String
  events_processed_after_restart : ℤ
  partitions_cached : ℤ
  reads_in_progress : ℤ
  writes_in_progress : ℤ
  write_pending_events_before_checkpoint : ℤ
  write_pending_events_after_checkpoint : ℤ
  checkpoint_status : String
  position : String
  last_checkpoint : String
  buffered_events : ℤ
  status : String
  mode : String
  progress : ℚ
  deriving DecidableEq, Repr

/-- Catalog entry `Projection` (src/models/projections.rs, lines 5-25). -/
structure Projection where
  name : String := ""
  events_processed : ℤ := 0
  rate : ℚ := 0
  partitions_cached : ℤ := 0
  reads_in_progress : ℤ := 0
  writes_in_progress : ℤ := 0
  write_queue : ℤ := 0
  write_queue_checkpoint : ℤ := 0
  checkpoint_status : String := ""
  position : String := ""
  last_checkpoint : String := ""
  result : String := ""
  state : String := ""
  query : String := ""
  buffered_events : ℤ := 0
  status : String := ""
  mode : String := ""
  progress : ℚ := 0
  deriving DecidableEq, Repr

/-- The projections catalog engine (src/models/projections.rs, lines 27-33).
The `clock : Instant` field of the source is an external monotonic clock;
its reading `clock.elapsed()` at the start of an `update` call is passed to
the embedded `update` as the explicit argument `now` (in seconds, `f32`
modelled as `ℚ`). -/
structure Projections where
  inner : List (String × Projection) := []
  last_time : Option ℚ := none
  previous : List (String × ProjectionStatus) := []
  deriving Repr

/-- The loop body of `Projections::update`
(src/models/projections.rs, lines 40-64): the entry is fetched or created
and, when a previous snapshot for the same name exists
(`self.previous.remove`), the rate is `(current − previous) / (now − last)`;
the record then overwrites the displayed fields and becomes the new
"previous". -/
def Projections.updateStep (now last : ℚ)
    (acc : List (String × Projection) × List (String × ProjectionStatus))
    (update : ProjectionStatus) :
    List (String × Projection) × List (String × ProjectionStatus) :=
  let (inner, previous) := acc
  let entry := (alLookup inner update.name).getD ({ } : Projection)
  let (entry, previous) :=
    match alLookup previous update.name, alRemove previous update.name with
    | some prev, previous =>
      ({ entry with
         rate := ((update.events_processed_after_restart
                    - prev.events_processed_after_restart : ℤ) : ℚ) / (now - last) },
       previous)
    | none, previous => (entry, previous)
  let entry :=
    { entry with
      name := update.name
      events_processed := update.events_processed_after_restart
      partitions_cached := update.partitions_cached
      reads_in_progress := update.reads_in_progress
      writes_in_progress := update.writes_in_progress
      write_queue := update.write_pending_events_before_checkpoint
      write_queue_checkpoint := update.write_pending_events_after_checkpoint
      checkpoint_status := update.checkpoint_status
      position := update.position
      last_checkpoint := update.last_checkpoint
      buffered_events := update.buffered_events
      status := update.status
      mode := update.mode
      progress := update.progress }
  (alInsert inner update.name entry, alInsert previous update.name update)

/-- `Projections::update` (src/models/projections.rs, lines 36-67): `now` is
sampled once per call and `last` defaults to `now` on the first call; the
loop body `Projections.updateStep` runs over the batch; `last_time := now`
once per call, after the loop. -/
def Projections.update (s : Projections) (now : ℚ)
    (updates : List ProjectionStatus) : Projections :=
  let last := s.last_time.getD now
  let folded := updates.foldl (Projections.updateStep now last) (s.inner, s.previous)
  { inner := folded.1, last_time := some now, previous := folded.2 }

/-- `Projections::count` (src/models/projections.rs, lines 88-90). -/
def Projections.count (s : Projections) : Nat := s.inner.length

/-- `Projections::by_idx` (src/models/projections.rs, lines 73-78): the
`idx`-th entry of the catalog in iteration order. -/
def Projections.by_idx (s : Projections) (idx : Nat) : Option Projection :=
  (s.inner.get? idx).map Prod.snd

/-! ## `src/models/monitoring.rs` -/

/-- Cluster role of a gossip member (`eventstore::operations::VNodeState`);
the engine only distinguishes `Leader` and `Follower`. -/
inductive VNodeState
  | leader
  | follower
  | other
  deriving DecidableEq, Repr

/-- `eventstore::operations::MemberInfo` (the fields the engine reads);
the instance id (a UUID) is modelled as a `Nat`. -/
structure MemberInfo where
  instance_id : Nat
  epoch_number : ℤ
  writer_checkpoint : ℤ
  state : VNodeState
  is_alive : Bool
  deriving DecidableEq, Repr

/-- `eventstore_extras::stats::Drive` (carried through unchanged). -/
structure Drive where
  path : String
  total_bytes : Nat
  available_bytes : Nat
  used_bytes : Nat
  usage : String
  deriving DecidableEq, Repr

/-- `eventstore_extras::stats::Statistics` (the fields the engine reads):
`proc.cpu`, `proc.disk_io.written_bytes`, `sys.free_mem`, `sys.drive`. -/
structure Statistics where
  proc_cpu : ℚ
  written_bytes : ℤ
  free_mem : ℤ
  drive : Option Drive
  deriving DecidableEq, Repr

/-- `Leader` (src/models/monitoring.rs, lines 5-9). -/
structure MLeader where
  instance_id : Nat
  epoch_number : ℤ
  writer_checkpoint : ℤ
  deriving DecidableEq, Repr

/-- `GRAPH_TIME_LIMIT` (src/models/monitoring.rs, line 11). -/
def GRAPH_TIME_LIMIT : Nat := 20

/-- The cluster-health state `Monitoring`
(src/models/monitoring.rs, lines 13-31); the server version string is kept
as opaque data. -/
structure Monitoring where
  increment : Nat := 0
  last_epoch_number : Option ℤ := none
  last_writer_checkpoint : Option ℤ := none
  writer_checkpoints : List (ℚ × ℚ) := []
  cpu_load : List (ℚ × ℚ) := []
  bytes_written : List (ℚ × ℚ) := []
  leader : Option MLeader := none
  out_of_sync_cluster_counter : Nat := 0
  truncation_counter : Nat := 0
  elections : Nat := 0
  no_leader_counter : Nat := 0
  free_mem : ℚ := 0
  unresponsive_nodes : Nat := 0
  drive : Option Drive := none
  server_version : String := ""
  last_bytes_written : Option ℤ := none
  deriving Repr

/-- `find_leader` (src/models/monitoring.rs, lines 134-138): the first gossip
member whose state is `Leader`. -/
def find_leader (members : List MemberInfo) : Option MemberInfo :=
  members.find? (fun (m : MemberInfo) => m.state = VNodeState.leader)

/-- The bytes-written block of `Monitoring::update`
(src/models/monitoring.rs, lines 40-51): on the first poll the delta is
seeded with `0`; afterwards the delta against the previous cumulative counter
is pushed, divided by `(increment + 2) - increment`. -/
def Monitoring.bytesStep (s : Monitoring) (stats : Statistics) : Monitoring :=
  match s.last_bytes_written with
  | some last_bytes_written =>
    let diff := stats.written_bytes - last_bytes_written
    { s with
      bytes_written := s.bytes_written ++
        [((s.increment : ℚ), (diff : ℚ) / ((s.increment + 2 - s.increment : Nat) : ℚ))]
      last_bytes_written := some stats.written_bytes }
  | none =>
    { s with
      bytes_written := s.bytes_written ++ [((s.increment : ℚ), 0)]
      last_bytes_written := some stats.written_bytes }

/-- The sample `Monitoring.bytesStep` pushes onto the bytes-written window
(delta per poll on later polls, the `0` seed on the first). -/
def bytesSample (s : Monitoring) (stats : Statistics) : ℚ × ℚ :=
  match s.last_bytes_written with
  | some last_bytes_written =>
    ((s.increment : ℚ),
     ((stats.written_bytes - last_bytes_written : ℤ) : ℚ)
       / ((s.increment + 2 - s.increment : Nat) : ℚ))
  | none => ((s.increment : ℚ), 0)

/-- The leader block of `Monitoring::update`
(src/models/monitoring.rs, lines 53-86): record the leader; an epoch change
against the remembered epoch counts an election; with a remembered
checkpoint, more than one lagging follower counts an out-of-sync and a
shrinking leader checkpoint counts a truncation; then the leader's
epoch/checkpoint are remembered.  Without a leader only the no-leader
counter moves. -/
def Monitoring.leaderStep (s : Monitoring) (gossip : List MemberInfo) : Monitoring :=
  match find_leader gossip with
  | some leader =>
    let s :=
      { s with
        leader := some
          { instance_id := leader.instance_id
            epoch_number := leader.epoch_number
            writer_checkpoint := leader.writer_checkpoint } }
    let s :=
      match s.last_epoch_number with
      | some last_epoch =>
        if last_epoch ≠ leader.epoch_number then
          { s with elections := s.elections + 1 }
        else s
      | none => s
    let s :=
      match s.last_writer_checkpoint with
      | some last_chk =>
        let out_of_sync_count :=
          ((gossip.filter (fun (m : MemberInfo) => m.state = VNodeState.follower)).filter
            (fun (m : MemberInfo) => m.writer_checkpoint < last_chk)).length
        let s :=
          if out_of_sync_count > 1 then
            { s with out_of_sync_cluster_counter := s.out_of_sync_cluster_counter + 1 }
          else s
        if last_chk > leader.writer_checkpoint then
          { s with truncation_counter := s.truncation_counter + 1 }
        else s
      | none => s
    { s with
      last_writer_checkpoint := some leader.writer_checkpoint
      last_epoch_number := some leader.epoch_number }
  | none => { s with no_leader_counter := s.no_leader_counter + 1 }

/-- `Monitoring::update` (src/models/monitoring.rs, lines 34-97): push the
CPU sample, refresh free memory / unresponsive count / drive, run the
bytes-written and leader blocks, advance the logical clock by 2, and evict
the oldest CPU / bytes-written sample once a window has reached
`GRAPH_TIME_LIMIT` entries. -/
def Monitoring.update (s : Monitoring) (stats : Statistics)
    (gossip : List MemberInfo) : Monitoring :=
  let s :=
    { s with
      cpu_load := s.cpu_load ++ [((s.increment : ℚ), stats.proc_cpu)]
      free_mem := (stats.free_mem : ℚ) / 1073741824
      unresponsive_nodes := (gossip.filter (fun (m : MemberInfo) => !m.is_alive)).length
      drive := stats.drive }
  let s := s.bytesStep stats
  let s := s.leaderStep gossip
  let s := { s with increment := s.increment + 2 }
  let s :=
    if s.cpu_load.length ≥ GRAPH_TIME_LIMIT then
      { s with cpu_load := s.cpu_load.drop 1 }
    else s
  if s.bytes_written.length ≥ GRAPH_TIME_LIMIT then
    { s with bytes_written := s.bytes_written.drop 1 }
  else s

/-! ## Key events and view requests (`src/views/mod.rs`) -/

/-- `crossterm::event::KeyCode` (the variants the program matches on). -/
inductive KeyCode
  | char (c : Char)
  | up
  | down
  | left
  | right
  | enter
  | esc
  | backspace
  | tab
  | backTab
  | other
  deriving DecidableEq, Repr

/-- `Request` (src/views/mod.rs, lines 321-325). -/
inductive Request
  | noop
  | refresh
  | exit
  deriving DecidableEq, Repr

/-! ## Stream events (`eventstore` crate) -/

/-- `eventstore::RecordedEvent` (the fields the views read); the payload is
modelled as a string (the source's UTF-8 `expect` on raw bytes is outside
this model). -/
structure RecordedEvent where
  stream_id : String
  revision : Nat
  event_type : String
  data : String
  is_json : Bool
  deriving DecidableEq, Repr

/-- `eventstore::ResolvedEvent`: a possibly-linked event. -/
structure ResolvedEvent where
  event : Option RecordedEvent
  link : Option RecordedEvent
  deriving DecidableEq, Repr

/-- `ResolvedEvent::get_original_event`: the link record when present, else
the event record; the source unwraps, so `none` models the panic when both
are absent. -/
def ResolvedEvent.get_original_event (e : ResolvedEvent) : Option RecordedEvent :=
  match e.link with
  | some l => some l
  | none => e.event

/-! ## The fetch environment

`load`/`refresh` run synchronous `block_on` fetches against the remote
store (§5, §6 of the spec).  One controller call's fetch outcomes are
supplied by this record of oracles; `Except.error` is the typed failure
the client returns for that call. -/

/-- Fetch oracles for one controller call (`Env` in src/views/mod.rs carries
the live client handles; here it carries the outcomes the client would
produce, plus the session clock reading `now` used by the projections
engine and the external JSON decoder for projection details). -/
structure Env where
  now : ℚ
  statsNext : Except EsError (List (String × String))
  streamNames : Except EsError (List ResolvedEvent)
  readAll : Except EsError (List ResolvedEvent)
  readStream : String → Except EsError (List ResolvedEvent)
  projList : Except EsError (List ProjectionStatus)
  parseProjectionDetails : String → Option String

/-! ## `src/views/dashboard.rs` (and `Stats::from` in `src/main.rs`) -/

/-- `Queue` (src/views/dashboard.rs, lines 23-36; identical in
src/main.rs, lines 484-497). -/
structure Queue where
  avg_items_per_second : String := ""
  length_current_try_peak : String := ""
  current_idle_time : String := ""
  length : String := ""
  group_name : String := ""
  length_lifetime_peak : String := ""
  last_processed_message : String := ""
  total_items_processed : String := ""
  idle_time_percent : String := ""
  queue_name : String := ""
  in_progress_message : String := ""
  deriving DecidableEq, Repr

/-- The `match sections[3]` field dispatch of `Model::from`
(src/views/dashboard.rs, lines 57-70): unrecognized fields leave the entry
unchanged. -/
def applyQueueField (queue : Queue) (field value : String) : Queue :=
  match field with
  | "idleTimePercent" => { queue with idle_time_percent := value }
  | "queueName" => { queue with queue_name := value }
  | "avgItemsPerSecond" => { queue with avg_items_per_second := value }
  | "lengthCurrentTryPeak" => { queue with length_current_try_peak := value }
  | "currentIdleTime" => { queue with current_idle_time := value }
  | "length" => { queue with length := value }
  | "groupName" => { queue with group_name := value }
  | "lengthLifetimePeak" => { queue with length_lifetime_peak := value }
  | "inProgressMessage" => { queue with in_progress_message := value }
  | "lastProcessedMessage" => { queue with last_processed_message := value }
  | "totalItemsProcessed" => { queue with total_items_processed := value }
  | _ => queue

/-- `Model` (src/views/dashboard.rs, lines 38-41; `Stats` in src/main.rs). -/
structure DashboardModel where
  queues : List (String × Queue) := []
  deriving Repr

/-- `Model::from` (src/views/dashboard.rs, lines 44-75; textually identical
to `Stats::from` in src/main.rs, lines 505-537).  For each key/value pair the
key is split on `-`; `sections[1]` is read unconditionally and, in the
`queue` namespace, `sections[2]`/`sections[3]` as well — each of these
indexings panics (`none`) when the key has too few sections.  In the `queue`
namespace, `entry(...).or_default()` creates the queue entry before the field
dispatch, so even an unrecognized fourth section creates an entry. -/
def DashboardModel.fromMap (map : List (String × String)) : Option DashboardModel :=
  (map.foldlM (fun queues (kv : String × String) => do
      let sections := rustSplit kv.1 '-'
      let s1 ← sections.get? 1
      if s1 = "queue" then do
        let queue_name ← sections.get? 2
        let field ← sections.get? 3
        let queue := (alLookup queues queue_name).getD ({ } : Queue)
        pure (alInsert queues queue_name (applyQueueField queue field kv.2))
      else
        pure queues)
    ([] : List (String × Queue))).map (fun qs => { queues := qs })

/-- `DashboardView` (src/views/dashboard.rs, lines 78-94); `table_state` is
pure render state of the widget library and the memoized stats iterator is
the external handle whose `next()` outcome `Env.statsNext` supplies. -/
structure DashboardView where
  model : DashboardModel := {}
  scroll : Nat := 0
  deriving Repr

/-- `DashboardView::refresh` (src/views/dashboard.rs, lines 103-127): fetch
the next raw stats map and rebuild the model wholesale.  The source calls
`.unwrap()` on the `block_on` result, so a fetch error panics (`none`), as
does a panic inside `Model::from`. -/
def DashboardView.refresh (v : DashboardView) (env : Env) : Option DashboardView :=
  match env.statsNext with
  | .error _ => none
  | .ok map =>
    match DashboardModel.fromMap map with
    | none => none
    | some m => some { v with model := m }

/-- `DashboardView::load` (src/views/dashboard.rs, lines 97-99): delegates
to `refresh`. -/
def DashboardView.load (v : DashboardView) (env : Env) : Option DashboardView :=
  v.refresh env

/-- `DashboardView::on_key_pressed` (src/views/dashboard.rs, lines 209-224). -/
def DashboardView.on_key_pressed (v : DashboardView) (key : KeyCode) :
    Option (DashboardView × Request) :=
  match key with
  | .char 'q' => some (v, .exit)
  | .char 'Q' => some (v, .exit)
  | .up => some (if v.scroll > 0 then { v with scroll := v.scroll - 1 } else v, .noop)
  | .down => (u16Add v.scroll 1).map (fun s => ({ v with scroll := s }, .noop))
  | _ => some (v, .noop)

/-! ## `src/views/stream_browser.rs` -/

/-- `Stage` of the stream browser (src/views/stream_browser.rs, lines 14-20). -/
inductive SbStage
  | main
  | stream
  | streamPreview
  | popup
  deriving DecidableEq, Repr

/-- `Model` of the stream browser (src/views/stream_browser.rs, lines 48-54). -/
structure StreamsModel where
  last_created : List String := []
  recently_changed : List String := []
  selected_stream : Option String := none
  selected_stream_events : List ResolvedEvent := []
  deriving Repr

/-- `StreamsView` (src/views/stream_browser.rs, lines 22-46); the
`TableState` fields are pure render state of the widget library. -/
structure StreamsView where
  selected_tab : Nat := 0
  selected : Nat := 0
  stage : SbStage := SbStage.main
  scroll : Nat := 0
  buffer : String := ""
  model : StreamsModel := {}
  deriving Repr

/-- `str::rsplit_once`: split at the last occurrence of the separator
character. -/
def rsplitOnce (s : String) (sep : Char) : Option (String × String) :=
  match (rustSplit s sep).reverse with
  | [] => none
  | [_] => none
  | last :: rest => some (String.intercalate (String.mk [sep]) rest.reverse, last)

/-- The body of the `block_on` closure of `StreamsView::load`
(src/views/stream_browser.rs, lines 70-105): list the `$streams` events and
the recent `$all` slice (`read_stream_next` has already folded
`ResourceNotFound` into end-of-iteration inside the oracles), derive the
recently-created names from each event payload's text after the last `@`
(`unwrap_or_default` when there is none), and the recently-changed names from
de-duplicated stream ids.  `none` models the panic when a resolved event
carries no record. -/
def streamsLoadModel (env : Env) : Except EsError (Option StreamsModel) :=
  match env.streamNames with
  | .error e => .error e
  | .ok names =>
    match env.readAll with
    | .error e => .error e
    | .ok all =>
      .ok (do
        let last_created ← names.foldlM (fun (acc : List String) ev => do
          let orig ← ev.get_original_event
          pure (acc ++ [((rsplitOnce orig.data '@').getD ("", "")).2])) []
        let recently_changed ← all.foldlM (fun (acc : List String) ev => do
          let orig ← ev.get_original_event
          if acc.contains orig.stream_id then pure acc
          else pure (acc ++ [orig.stream_id])) []
        pure { last_created := last_created
               recently_changed := recently_changed
               selected_stream := none
               selected_stream_events := [] })

/-- `StreamsView::load` (src/views/stream_browser.rs, lines 66-107): build a
fresh model; the source calls `.unwrap()` on the `block_on` result, so a
fetch error panics (`none`). -/
def StreamsView.load (v : StreamsView) (env : Env) : Option StreamsView :=
  match streamsLoadModel env with
  | .error _ => none
  | .ok none => none
  | .ok (some m) => some { v with model := m }

/-- `StreamsView::unload` (src/views/stream_browser.rs, lines 109-115). -/
def StreamsView.unload (v : StreamsView) : StreamsView :=
  { v with
    selected := 0
    selected_tab := 0
    scroll := 0
    stage := SbStage.main
    model := { last_created := []
               recently_changed := []
               selected_stream := none
               selected_stream_events := [] } }

/-- `StreamsView::refresh` (src/views/stream_browser.rs, lines 117-140): when
a stream is selected, re-read its last 20 events; the source calls
`.unwrap()` on the `block_on` result, so a fetch error panics (`none`). -/
def StreamsView.refresh (v : StreamsView) (env : Env) : Option StreamsView :=
  match v.model.selected_stream with
  | some stream_name =>
    match env.readStream stream_name with
    | .error _ => none
    | .ok events =>
      some { v with model := { v.model with selected_stream_events := events } }
  | none => some v

/-- `StreamsView::on_key_pressed` (src/views/stream_browser.rs, lines
380-485).  `none` models a panic: the `len - 1` usize underflow on `Down`
when the visible list is empty, the `rows[self.selected]` indexing on
`Enter` in `Main`, and the `u16` scroll overflow. -/
def StreamsView.on_key_pressed (v : StreamsView) (key : KeyCode) :
    Option (StreamsView × Request) :=
  if v.stage = SbStage.popup then
    let v :=
      match key with
      | .esc => { v with stage := SbStage.main }
      | .backspace => { v with buffer := v.buffer.dropRight 1 }
      | .enter =>
        { v with
          stage := SbStage.stream
          model := { v.model with selected_stream := some v.buffer }
          buffer := "" }
      | .char c => if c.toNat < 128 then { v with buffer := v.buffer.push c } else v
      | _ => v
    some (v, Request.noop)
  else
    match key with
    | .char 'q' =>
      match v.stage with
      | .main => some (v, Request.exit)
      | .popup => some (v, Request.noop)
      | .stream => some ({ v with stage := SbStage.main }, Request.noop)
      | .streamPreview =>
        some ({ v with scroll := 0, stage := SbStage.stream }, Request.noop)
    | .char 'Q' =>
      match v.stage with
      | .main => some (v, Request.exit)
      | .popup => some (v, Request.noop)
      | .stream => some ({ v with stage := SbStage.main }, Request.noop)
      | .streamPreview =>
        some ({ v with scroll := 0, stage := SbStage.stream }, Request.noop)
    | .char '/' =>
      some (if v.stage = SbStage.main then { v with stage := SbStage.popup } else v,
            Request.noop)
    | .left =>
      some ({ v with selected_tab := (v.selected_tab + 1) % 2, selected := 0 },
            Request.noop)
    | .right =>
      some ({ v with selected_tab := (v.selected_tab + 1) % 2, selected := 0 },
            Request.noop)
    | .up =>
      if v.stage = SbStage.streamPreview then
        some (if v.scroll > 0 then { v with scroll := v.scroll - 1 } else v,
              Request.noop)
      else
        some (if v.selected > 0 then { v with selected := v.selected - 1 } else v,
              Request.noop)
    | .down =>
      match v.stage with
      | .main =>
        let len := if v.selected_tab = 0 then v.model.last_created.length
                   else v.model.recently_changed.length
        match usizeSub len 1 with
        | none => none
        | some bound =>
          some (if v.selected < bound then { v with selected := v.selected + 1 } else v,
                Request.noop)
      | .stream =>
        match usizeSub v.model.selected_stream_events.length 1 with
        | none => none
        | some bound =>
          some (if v.selected < bound then { v with selected := v.selected + 1 } else v,
                Request.noop)
      | .streamPreview =>
        (u16Add v.scroll 1).map (fun s => ({ v with scroll := s }, Request.noop))
      | _ => some (v, Request.noop)
    | .enter =>
      if v.stage = SbStage.main then
        let rows := if v.selected_tab = 0 then v.model.last_created
                    else v.model.recently_changed
        match rows.get? v.selected with
        | none => none
        | some name =>
          some ({ v with
                  stage := SbStage.stream
                  model := { v.model with selected_stream := some name }
                  selected := 0 },
                Request.refresh)
      else if v.stage = SbStage.stream then
        some ({ v with stage := SbStage.streamPreview }, Request.refresh)
      else
        some (v, Request.noop)
    | _ => some (v, Request.noop)

/-- The event-selection step of `StreamsView::draw` in Stage `StreamPreview`
(src/views/stream_browser.rs, lines 304-305): the unchecked indexing
`selected_stream_events[self.selected]` followed by `event.event.as_ref().unwrap()`;
`none` models either panic.  The rest of `draw` only lays out widgets. -/
def StreamsView.draw_preview_event (v : StreamsView) : Option RecordedEvent :=
  match v.model.selected_stream_events.get? v.selected with
  | none => none
  | some ev => ev.event

/-! ## `src/views/projections.rs` -/

/-- `Stage` of the projections view (src/views/projections.rs, lines 26-30). -/
inductive PStage
  | main
  | detail
  deriving DecidableEq, Repr

/-- `ProjectionsViews` (src/views/projections.rs, lines 44-51); the
`TableState` is pure render state. -/
structure ProjectionsViews where
  model : Projections := {}
  selected : Nat := 0
  stage : PStage := PStage.main
  scroll : Nat := 0
  deriving Repr

/-- The scan inside the detail `block_on` of `ProjectionsViews::refresh`
(src/views/projections.rs, lines 156-167): walk the metadata stream
newest-first for a `$ProjectionUpdated` event; decode its payload
(`expect`, so a malformed payload panics, `none`); reaching the end is
`ResourceNotFound`. -/
def scanProjectionUpdated (env : Env) :
    List ResolvedEvent → Option (Except EsError String)
  | [] => some (.error EsError.resourceNotFound)
  | ev :: rest =>
    match ev.get_original_event with
    | none => none
    | some orig =>
      if orig.event_type = "$ProjectionUpdated" then
        match env.parseProjectionDetails orig.data with
        | none => none
        | some query => some (.ok query)
      else scanProjectionUpdated env rest

/-- `ProjectionsViews::refresh` (src/views/projections.rs, lines 141-185).
In Stage `Detail`: `by_idx_mut(self.selected).unwrap()` (panic when the
selection is out of range), then fetch the projection's metadata stream and
store the query text (errors propagate with `?`).  In Stage `Main`: list the
projections (errors propagate with `?`) and feed them to the engine, reading
the session clock `env.now`. -/
def ProjectionsViews.refresh (v : ProjectionsViews) (env : Env) :
    Option (Except EsError ProjectionsViews) :=
  if v.stage = PStage.detail then
    match v.model.by_idx v.selected with
    | none => none
    | some proj =>
      match env.readStream ("$projections-" ++ proj.name) with
      | .error e => some (.error e)
      | .ok events =>
        match scanProjectionUpdated env events with
        | none => none
        | some (.error e) => some (.error e)
        | some (.ok query) =>
          some (.ok { v with
                      model := { v.model with
                                 inner := alInsert v.model.inner proj.name
                                   { proj with query := query } } })
  else
    match env.projList with
    | .error e => some (.error e)
    | .ok projections =>
      some (.ok { v with model := v.model.update env.now projections })

/-- `ProjectionsViews::load` (src/views/projections.rs, lines 135-137):
delegates to `refresh`. -/
def ProjectionsViews.load (v : ProjectionsViews) (env : Env) :
    Option (Except EsError ProjectionsViews) :=
  v.refresh env

/-- `ProjectionsViews::on_key_pressed` (src/views/projections.rs, lines
194-227): total — every selection move is bounds-guarded. -/
def ProjectionsViews.on_key_pressed (v : ProjectionsViews) (key : KeyCode) :
    ProjectionsViews × Request :=
  match key with
  | .char 'q' =>
    if v.stage = PStage.detail then ({ v with stage := PStage.main, selected := 0 }, .noop)
    else (v, .exit)
  | .char 'Q' =>
    if v.stage = PStage.detail then ({ v with stage := PStage.main, selected := 0 }, .noop)
    else (v, .exit)
  | .up => (if v.selected > 0 then { v with selected := v.selected - 1 } else v, .noop)
  | .down =>
    (if v.selected + 1 < v.model.count then { v with selected := v.selected + 1 } else v,
     .noop)
  | .enter => ({ v with stage := PStage.detail }, .refresh)
  | _ => (v, .noop)

/-! ## `src/views/mod.rs` — the session controller -/

/-- `MainTab` (src/views/mod.rs, lines 306-312). -/
inductive MainTab
  | dashboard
  | streamsBrowser
  | projections
  | persistentSubscriptions
  deriving DecidableEq, Repr

/-- `TABS` (src/views/mod.rs, lines 314-319): four tabs, although the
controller's `views` vector holds only three views — index 3 has no view. -/
def TABS : List MainTab :=
  [MainTab.dashboard, MainTab.streamsBrowser, MainTab.projections,
   MainTab.persistentSubscriptions]

/-- `Context` (src/views/mod.rs, lines 34-44): the runtime, client handles,
styling and the static keybinding map are external; the `views` vector is
represented by its three concrete elements in order
(`DashboardView`, `StreamsView`, `ProjectionsViews`). -/
structure Context where
  selected_tab : Nat := 0
  dashboard : DashboardView := {}
  streams : StreamsView := {}
  projections : ProjectionsViews := {}
  last_error : Option EsError := none
  deriving Repr

/-- `view.unload(&env)` on `views[selected_tab]` — dashboard and projections
unloads are no-ops; out-of-range indices (`views.get_mut` returning `None`)
do nothing. -/
def Context.unloadCurrent (c : Context) : Context :=
  match c.selected_tab with
  | 0 => c
  | 1 => { c with streams := c.streams.unload }
  | 2 => c
  | _ => c

/-- The `if let Some(view) = self.views.get_mut(self.selected_tab)
{ if let Err(e) = view.load(&env) { self.last_error = Some(e) } }` pattern
(src/views/mod.rs, lines 131-135, 148-152 and 281-294).  Only the
projections view can yield an `Err` value — the dashboard and stream views
`.unwrap()` internally, so their failures panic (`none`) instead of being
captured. -/
def Context.loadCurrent (c : Context) (env : Env) : Option Context :=
  match c.selected_tab with
  | 0 => (c.dashboard.load env).map (fun d => { c with dashboard := d })
  | 1 => (c.streams.load env).map (fun s => { c with streams := s })
  | 2 =>
    match c.projections.load env with
    | none => none
    | some (.error e) => some { c with last_error := some e }
    | some (.ok p) => some { c with projections := p }
  | _ => some c

/-- The main key dispatch of `Context::on_key_pressed`
(src/views/mod.rs, lines 123-161): Tab/BackTab unload the current view,
move the index modulo `TABS.len()` (wrapping both ways), and load the new
view capturing its error; any other key is forwarded to the active view,
whose `Request` is returned; without an active view the result is `Noop`. -/
def Context.dispatchKey (c : Context) (env : Env) (key : KeyCode) :
    Option (Context × Request) :=
  match key with
  | .tab =>
    let c := c.unloadCurrent
    let c := { c with selected_tab := (c.selected_tab + 1) % TABS.length }
    (c.loadCurrent env).map (fun c => (c, Request.noop))
  | .backTab =>
    let c := c.unloadCurrent
    let c :=
      if c.selected_tab = 0 then { c with selected_tab := TABS.length - 1 }
      else { c with selected_tab := c.selected_tab - 1 }
    (c.loadCurrent env).map (fun c => (c, Request.noop))
  | _ =>
    match c.selected_tab with
    | 0 =>
      (c.dashboard.on_key_pressed key).map
        (fun dr => ({ c with dashboard := dr.1 }, dr.2))
    | 1 =>
      (c.streams.on_key_pressed key).map
        (fun sr => ({ c with streams := sr.1 }, sr.2))
    | 2 =>
      let pr := c.projections.on_key_pressed key
      some ({ c with projections := pr.1 }, pr.2)
    | _ => some (c, Request.noop)

/-- `Context::on_key_pressed` (src/views/mod.rs, lines 110-162).  When an
error is stored, `q`/`Q` returns `Exit` at once; every other key falls
through (the `_ => {}` arm of the guard) into the main dispatch. -/
def Context.on_key_pressed (c : Context) (env : Env) (key : KeyCode) :
    Option (Context × Request) :=
  if c.last_error.isSome ∧ (key = KeyCode.char 'q' ∨ key = KeyCode.char 'Q') then
    some (c, Request.exit)
  else
    c.dispatchKey env key

/-- `Context::refresh` (src/views/mod.rs, lines 164-171): refresh the active
view, capturing an `Err` value into `last_error`; as with `loadCurrent`,
only the projections view can produce one — the other views panic. -/
def Context.refresh (c : Context) (env : Env) : Option Context :=
  match c.selected_tab with
  | 0 => (c.dashboard.refresh env).map (fun d => { c with dashboard := d })
  | 1 => (c.streams.refresh env).map (fun s => { c with streams := s })
  | 2 =>
    match c.projections.refresh env with
    | none => none
    | some (.error e) => some { c with last_error := some e }
    | some (.ok p) => some { c with projections := p }
  | _ => some c

/-- `Context::init` (src/views/mod.rs, lines 281-294): load the active view,
capturing its error — the same pattern as `loadCurrent`. -/
def Context.init (c : Context) (env : Env) : Option Context :=
  c.loadCurrent env

/-! ## Concrete fixtures used by the closed theorems below -/

/-- An environment whose every fetch succeeds with empty data. -/
def envOk : Env :=
  { now := 0
    statsNext := .ok []
    streamNames := .ok []
    readAll := .ok []
    readStream := fun _ => .ok []
    projList := .ok []
    parseProjectionDetails := fun _ => none }

/-- An environment whose stats fetch fails with a transport error. -/
def envStatsErr : Env := { envOk with statsNext := .error EsError.transport }

/-- A freshly initialized controller (dashboard tab active, no error). -/
def ctxInit : Context := {}

/-- A controller on the (view-less) fourth tab. -/
def ctxTab3 : Context := { selected_tab := 3 }

/-- A controller with a transport error stored in the shared error slot. -/
def ctxWithError : Context := { last_error := some EsError.transport }

/-- A stream-browser view in Stage `StreamPreview` with no loaded events. -/
def previewNoEvents : StreamsView := { stage := SbStage.streamPreview }

/-- A default (all-fields-zero) persistent-subscription catalog entry. -/
def psZero : PersistentSubscription := {}

/-- The §8 scenario: a persistent subscription on stream `orders` with
`knownRev = 100`, `checkpointedRev = 95`, `avgRate = 5`. -/
def ordersInfo : PersistentSubscriptionInfo :=
  { event_source := "orders"
    group_name := "grp"
    status := "Live"
    connections := [()]
    stats :=
      { total_items := 500
        total_in_flight_messages := 3
        average_per_second := 5
        last_known_position := none
        last_checkpointed_position := none
        last_known_event_revision := some 100
        last_checkpointed_event_revision := some 95 } }

/-- A `$all` subscription whose known and checkpointed positions agree. -/
def allInfoEq : PersistentSubscriptionInfo :=
  { event_source := "$all"
    group_name := "grp"
    status := "Live"
    connections := []
    stats :=
      { total_items := 7
        total_in_flight_messages := 0
        average_per_second := 2
        last_known_position := some { commit := 10, prepare := 10 }
        last_checkpointed_position := some { commit := 10, prepare := 10 }
        last_known_event_revision := none
        last_checkpointed_event_revision := none } }

/-- A `$all` subscription whose known and checkpointed positions differ. -/
def allInfoNe : PersistentSubscriptionInfo :=
  { allInfoEq with
    stats :=
      { allInfoEq.stats with
        last_checkpointed_position := some { commit := 4, prepare := 4 } } }

/-- A one-entry persistent-subscriptions catalog. -/
def psCatalogOne : PersistentSubscriptions := { inner := [("orders/grp", psZero)] }

/-- A one-entry projections catalog. -/
def projCatalogOne : Projections := { inner := [("by-category", { })] }

/-- A fresh projections engine (`Projections::default`). -/
def projInit : Projections := {}

/-- A fresh cluster-health state (`Monitoring::default`). -/
def monInit : Monitoring := {}

/-- A first projection snapshot: 10 events processed. -/
def projStatusA : ProjectionStatus :=
  { name := "by-cat"
    events_processed_after_restart := 10
    partitions_cached := 1
    reads_in_progress := 0
    writes_in_progress := 0
    write_pending_events_before_checkpoint := 0
    write_pending_events_after_checkpoint := 0
    checkpoint_status := ""
    position := ""
    last_checkpoint := ""
    buffered_events := 0
    status := "Running"
    mode := "Continuous"
    progress := 100 }

/-- A second snapshot of the same projection: 30 events processed. -/
def projStatusB : ProjectionStatus :=
  { projStatusA with events_processed_after_restart := 30 }

/-!
## Theorems
-/

/-- C1: the error-containment claim fails on the code.  When the dashboard's
stats fetch fails, `DashboardView::refresh` calls `.unwrap()` on the fetch
result, so the failure panics (modelled `none`) and unwinds through every
controller entry point — `Context::refresh` (periodic refresh),
`Context::init`, and `Context::on_key_pressed` on a Tab switch into the
dashboard — instead of being stored in the shared error slot. -/
theorem controller_panics_on_view_fetch_error :
    Context.refresh ctxInit envStatsErr = none ∧
    Context.init ctxInit envStatsErr = none ∧
    Context.on_key_pressed ctxTab3 envStatsErr KeyCode.tab = none := by
  refine ⟨rfl, rfl, ?_⟩
  rfl

/-- C2 counterexample: with an error stored in the slot, a non-`q` key is
*not* swallowed: `Down` is forwarded to the active dashboard view (its
scroll moves from 0 to 1) and `Tab` still switches tabs (index 0 → 1),
contradicting "every other key has no effect". -/
theorem error_overlay_forwards_other_keys :
    ctxWithError.dashboard.scroll = 0 ∧
    (Context.on_key_pressed ctxWithError envOk KeyCode.down).map
      (fun cr => cr.1.dashboard.scroll) = some 1 ∧
    (Context.on_key_pressed ctxWithError envOk KeyCode.tab).map
      (fun cr => cr.1.selected_tab) = some 1 := by
  refine ⟨rfl, rfl, rfl⟩

/-- C2 amended: while the error slot is non-empty, `q`/`Q` yields
`Request::Exit` immediately with no state change; every *other* key is
processed exactly as the main dispatch would process it with no error
displayed (tab switching and view forwarding included). -/
theorem error_overlay_only_intercepts_quit (c : Context) (env : Env) (key : KeyCode)
    (he : c.last_error.isSome) :
    ((key = KeyCode.char 'q' ∨ key = KeyCode.char 'Q') →
      c.on_key_pressed env key = some (c, Request.exit)) ∧
    (key ≠ KeyCode.char 'q' → key ≠ KeyCode.char 'Q' →
      c.on_key_pressed env key = c.dispatchKey env key) := by
  constructor
  · intro hk
    simp [Context.on_key_pressed, he, hk]
  · intro h1 h2
    simp [Context.on_key_pressed, he, h1, h2]

/-- C2 witness for `error_overlay_only_intercepts_quit`, at the concrete
error-carrying controller: `q` exits, and `Down` goes to the main dispatch. -/
theorem error_overlay_only_intercepts_quit_witness :
    Context.on_key_pressed ctxWithError envOk (KeyCode.char 'q') =
      some (ctxWithError, Request.exit) ∧
    Context.on_key_pressed ctxWithError envOk KeyCode.down =
      Context.dispatchKey ctxWithError envOk KeyCode.down := by
  refine ⟨?_, ?_⟩
  · exact (error_overlay_only_intercepts_quit ctxWithError envOk (KeyCode.char 'q')
      (by decide)).1 (Or.inl rfl)
  · exact (error_overlay_only_intercepts_quit ctxWithError envOk KeyCode.down
      (by decide)).2 (by decide) (by decide)

/-- C3: building the resource-queue model is *not* total.  A key with fewer
than two dash-separated sections (here `"mem"`) makes `Model::from` /
`Stats::from` panic on the unchecked `sections[1]` indexing, and a
`queue`-namespace key with fewer than four sections panics on `sections[3]`;
well-shaped keys behave as claimed (a non-`queue` namespace is ignored, and
the §8 scenario builds exactly one queue named `Indexing`). -/
theorem model_from_panics_on_short_key :
    DashboardModel.fromMap [("mem", "42")] = none ∧
    DashboardModel.fromMap [("es-queue-Indexing", "42")] = none ∧
    DashboardModel.fromMap [("proc-cpu", "3")] = some { queues := [] } ∧
    DashboardModel.fromMap [("es-queue-Indexing-avgItemsPerSecond", "12.5")] =
      some { queues := [("Indexing", { avg_items_per_second := "12.5" })] } := by
  refine ⟨rfl, rfl, rfl, rfl⟩

/-- C4: `draw`/`on_key_pressed` of the stream browser are *not* total.  In
Stage `Main` with an empty stream list, `Enter` panics on the unchecked
`rows[self.selected]` indexing and `Down` panics on the `len - 1` usize
underflow; in Stage `StreamPreview` with no loaded events, `draw`'s
event-selection step panics on `selected_stream_events[self.selected]`. -/
theorem streams_view_panics_on_empty_list :
    StreamsView.on_key_pressed {} KeyCode.enter = none ∧
    StreamsView.on_key_pressed {} KeyCode.down = none ∧
    StreamsView.draw_preview_event previewNoEvents = none := by
  refine ⟨rfl, rfl, rfl⟩

/-- C5 counterexample: a successful refresh does *not* clear the stored
error.  With the dashboard active and every fetch succeeding, the refresh
returns normally and the slot still holds the transport error. -/
theorem successful_refresh_keeps_error :
    Context.refresh ctxWithError envOk = some ctxWithError ∧
    ctxWithError.last_error = some EsError.transport := by
  refine ⟨rfl, rfl⟩

/-- C5 amended: once an error is stored, no returning `load`/`refresh` call
ever leaves the slot empty — a successful view refresh leaves the slot
untouched and a failing projections refresh merely overwrites it.  (The code
has no statement clearing `last_error`.) -/
theorem refresh_never_clears_error (c : Context) (env : Env) (c' : Context)
    (he : c.last_error.isSome) :
    (Context.refresh c env = some c' → c'.last_error.isSome) ∧
    (Context.loadCurrent c env = some c' → c'.last_error.isSome) := by
  constructor
  · intro h
    rcases hc : c.selected_tab with _ | (_ | (_ | n)) <;>
      simp [Context.refresh, hc] at h
    · obtain ⟨d, _, rfl⟩ := h
      exact he
    · obtain ⟨s, _, rfl⟩ := h
      exact he
    · rcases hp : c.projections.refresh env with _ | er
      · simp [hp] at h
      · rcases er with e | p
        · simp [hp] at h
          subst h
          rfl
        · simp [hp] at h
          subst h
          exact he
    · subst h
      exact he
  · intro h
    rcases hc : c.selected_tab with _ | (_ | (_ | n)) <;>
      simp [Context.loadCurrent, hc] at h
    · obtain ⟨d, _, rfl⟩ := h
      exact he
    · obtain ⟨s, _, rfl⟩ := h
      exact he
    · rcases hp : c.projections.load env with _ | er
      · simp [hp] at h
      · rcases er with e | p
        · simp [hp] at h
          subst h
          rfl
        · simp [hp] at h
          subst h
          exact he
    · subst h
      exact he

/-- C5 witness for `refresh_never_clears_error`, at the concrete
error-carrying controller with an all-successful environment. -/
theorem refresh_never_clears_error_witness :
    ctxWithError.last_error.isSome := by
  exact (refresh_never_clears_error ctxWithError envOk ctxWithError (by decide)).1 rfl

/-- C6: for a persistent subscription on a named stream (source ≠ `$all`),
the update stores behind-by-messages
`(lastKnownRevision − lastCheckpointedRevision) + 1` (absent revisions
default to `0`), and behind-by-time is that count divided by
average-items-per-second rounded (half away from zero) to two decimals,
clamped to `0` when the quotient is non-finite — in this rational model,
exactly when the average rate is `0`; no NaN/∞ value exists in `ℚ`, so none
can be stored. -/
theorem psub_named_stream_behind_metrics (current : PersistentSubscription)
    (info : PersistentSubscriptionInfo) (h : info.event_source ≠ "$all") :
    (compute_behind_metrics current info).behind_by_messages =
      ((info.stats.last_known_event_revision.getD 0 : ℤ)
        - (info.stats.last_checkpointed_event_revision.getD 0 : ℤ)) + 1 ∧
    (compute_behind_metrics current info).behind_by_time =
      (if info.stats.average_per_second = 0 then 0
       else (rustRound (((((info.stats.last_known_event_revision.getD 0 : ℤ)
                  - (info.stats.last_checkpointed_event_revision.getD 0 : ℤ)) + 1 : ℤ) : ℚ)
                / info.stats.average_per_second * 100) : ℚ) / 100) := by
  constructor <;> simp [compute_behind_metrics, h]

/-- C6 witness for `psub_named_stream_behind_metrics`: the §8 scenario
(`knownRev = 100`, `checkpointedRev = 95`, `avgRate = 5`) yields
behind-by-messages `6` and behind-by-time `1.2`. -/
theorem psub_named_stream_behind_metrics_witness :
    (compute_behind_metrics psZero ordersInfo).behind_by_messages = 6 ∧
    (compute_behind_metrics psZero ordersInfo).behind_by_time = 6 / 5 := by
  have h := psub_named_stream_behind_metrics psZero ordersInfo (by decide)
  refine ⟨h.1.trans (by decide), h.2.trans ?_⟩
  norm_num [ordersInfo, rustRound]

/-- C7: for a persistent subscription on `$all`, the update stores
behind-by-time `-1` regardless of every other input field, and
behind-by-messages `0` when the last-known position equals the
last-checkpointed position and `-1` otherwise. -/
theorem psub_all_source_behind_metrics (current : PersistentSubscription)
    (info : PersistentSubscriptionInfo) (h : info.event_source = "$all") :
    (compute_behind_metrics current info).behind_by_time = -1 ∧
    (compute_behind_metrics current info).behind_by_messages =
      (if info.stats.last_known_position = info.stats.last_checkpointed_position
       then 0 else -1) := by
  constructor <;> simp [compute_behind_metrics, h]

/-- C7 witness for `psub_all_source_behind_metrics`: equal positions give
`(-1, 0)`; unequal positions give behind-by-messages `-1`. -/
theorem psub_all_source_behind_metrics_witness :
    (compute_behind_metrics psZero allInfoEq).behind_by_time = -1 ∧
    (compute_behind_metrics psZero allInfoEq).behind_by_messages = 0 ∧
    (compute_behind_metrics psZero allInfoNe).behind_by_messages = -1 := by
  have h1 := psub_all_source_behind_metrics psZero allInfoEq (by decide)
  have h2 := psub_all_source_behind_metrics psZero allInfoNe (by decide)
  exact ⟨h1.1, h1.2.trans (by decide), h2.2.trans (by decide)⟩

/-- Inserting one key never makes another key's lookup undefined. -/
theorem alLookup_alInsert_isSome {α : Type} (l : List (String × α)) (k k' : String)
    (v : α) (h : (alLookup l k').isSome) : (alLookup (alInsert l k v) k').isSome := by
  induction l with
  | nil => simp [alLookup] at h
  | cons a t ih =>
    by_cases ha : a.1 = k
    · simp only [alInsert, ha, if_pos rfl]
      by_cases hk : k = k'
      · simp [alLookup, hk]
      · have ha' : ¬ a.1 = k' := by
          rw [ha]; exact hk
        simp only [alLookup, if_neg hk]
        simpa [alLookup, ha'] using h
    · simp only [alInsert, if_neg ha]
      by_cases ha' : a.1 = k'
      · simp [alLookup, ha']
      · simp only [alLookup, if_neg ha']
        exact ih (by simpa [alLookup, ha'] using h)

/-- C10: the two catalog engines only insert or overwrite — a key present in
the catalog (projection name, or `streamName/groupName`) is still present
after any later `update` call, even when that call's snapshot list omits the
key. -/
theorem catalog_update_never_removes :
    (∀ (s : PersistentSubscriptions) (ps : List PersistentSubscriptionInfo)
       (k : String), (alLookup s.inner k).isSome →
         (alLookup (s.update ps).inner k).isSome) ∧
    (∀ (s : Projections) (now : ℚ) (us : List ProjectionStatus) (n : String),
       (alLookup s.inner n).isSome → (alLookup (s.update now us).inner n).isSome) := by
  constructor
  · intro s ps k h
    show (alLookup (PersistentSubscriptions.update s ps).inner k).isSome
    unfold PersistentSubscriptions.update
    induction ps generalizing s with
    | nil => exact h
    | cons p rest ih =>
      simp only [List.foldl_cons]
      exact ih { inner := _ } (alLookup_alInsert_isSome _ _ _ _ h)
  · intro s now us n h
    unfold Projections.update
    have key : ∀ (us : List ProjectionStatus)
        (acc : List (String × Projection) × List (String × ProjectionStatus)),
        (alLookup acc.1 n).isSome →
        (alLookup (us.foldl (Projections.updateStep now (s.last_time.getD now)) acc).1
          n).isSome := by
      intro us
      induction us with
      | nil => intro acc hacc; exact hacc
      | cons u rest ih =>
        intro acc hacc
        simp only [List.foldl_cons]
        apply ih
        unfold Projections.updateStep
        rcases hprev : alLookup acc.2 u.name with _ | prev <;>
          simp only [hprev] <;>
          exact alLookup_alInsert_isSome _ _ _ _ hacc
    exact key us (s.inner, s.previous) h

/-- C10 witness for `catalog_update_never_removes`: entries survive an update
whose snapshot list is empty. -/
theorem catalog_update_never_removes_witness :
    (alLookup (psCatalogOne.update []).inner "orders/grp").isSome ∧
    (alLookup (projCatalogOne.update 1 []).inner "by-category").isSome := by
  exact ⟨catalog_update_never_removes.1 psCatalogOne [] "orders/grp" (by decide),
         catalog_update_never_removes.2 projCatalogOne 1 [] "by-category" (by decide)⟩

/-- Lookup after insert-or-replace: the inserted value at the inserted key,
the old binding elsewhere. -/
theorem alLookup_alInsert {α : Type} (l : List (String × α)) (k k' : String) (v : α) :
    alLookup (alInsert l k v) k' = if k = k' then some v else alLookup l k' := by
  induction l with
  | nil => simp [alInsert, alLookup]
  | cons a t ih =>
    by_cases ha : a.1 = k
    · simp only [alInsert, if_pos ha]
      by_cases hk : k = k'
      · simp [alLookup, hk]
      · have ha' : ¬ a.1 = k' := by rw [ha]; exact hk
        simp [alLookup, hk, ha']
    · simp only [alInsert, if_neg ha]
      by_cases ha' : a.1 = k'
      · have hk : ¬ k = k' := by
          intro hkk
          exact ha (hkk ▸ ha')
        simp [alLookup, ha', hk]
      · simp [alLookup, ha', ih]

/-- Removing one key leaves every other key's binding unchanged. -/
theorem alLookup_alRemove_ne {α : Type} (l : List (String × α)) (k0 k : String)
    (h : k0 ≠ k) : alLookup (alRemove l k0) k = alLookup l k := by
  induction l with
  | nil => simp [alRemove]
  | cons a t ih =>
    by_cases ha : a.1 = k0
    · have ha' : ¬ a.1 = k := by rw [ha]; exact h
      simp [alRemove, alLookup, ha, ha', h]
    · by_cases hak : a.1 = k
      · simp [alRemove, alLookup, ha, hak, Ne.symm h]
      · simp [alRemove, alLookup, ha, hak, ih]

/-- A catalog-loop step leaves both components' bindings at every *other*
name unchanged. -/
theorem updateStep_lookup_ne (now last : ℚ)
    (acc : List (String × Projection) × List (String × ProjectionStatus))
    (u : ProjectionStatus) (k : String) (hk : u.name ≠ k) :
    alLookup (Projections.updateStep now last acc u).1 k = alLookup acc.1 k ∧
    alLookup (Projections.updateStep now last acc u).2 k = alLookup acc.2 k := by
  obtain ⟨inner, previous⟩ := acc
  rcases hprev : alLookup previous u.name with _ | prev <;>
    simp [Projections.updateStep, hprev, alLookup_alInsert, hk,
      alLookup_alRemove_ne _ _ _ hk]

/-- A catalog-loop step at the record's own name: the stored rate is the
consecutive-snapshot quotient when a previous snapshot exists and the
untouched entry rate otherwise, and the record becomes the new "previous". -/
theorem updateStep_lookup_self (now last : ℚ)
    (acc : List (String × Projection) × List (String × ProjectionStatus))
    (u : ProjectionStatus) :
    (alLookup (Projections.updateStep now last acc u).1 u.name).map Projection.rate =
      some (match alLookup acc.2 u.name with
            | some prev =>
              ((u.events_processed_after_restart
                 - prev.events_processed_after_restart : ℤ) : ℚ) / (now - last)
            | none => ((alLookup acc.1 u.name).getD ({ } : Projection)).rate) ∧
    alLookup (Projections.updateStep now last acc u).2 u.name = some u := by
  obtain ⟨inner, previous⟩ := acc
  rcases hprev : alLookup previous u.name with _ | prev <;>
    simp [Projections.updateStep, hprev, alLookup_alInsert]

/-- Folding the catalog loop over a batch that never mentions a name leaves
both components' bindings at that name unchanged. -/
theorem fold_lookup_ne (now last : ℚ) (us : List ProjectionStatus)
    (acc : List (String × Projection) × List (String × ProjectionStatus))
    (k : String) (h : ∀ u ∈ us, u.name ≠ k) :
    alLookup (us.foldl (Projections.updateStep now last) acc).1 k = alLookup acc.1 k ∧
    alLookup (us.foldl (Projections.updateStep now last) acc).2 k = alLookup acc.2 k := by
  induction us generalizing acc with
  | nil => exact ⟨rfl, rfl⟩
  | cons u rest ih =>
    have hu := h u (List.mem_cons_self u rest)
    have step := updateStep_lookup_ne now last acc u k hu
    have := ih (Projections.updateStep now last acc u)
      (fun v hv => h v (List.mem_cons_of_mem u hv))
    exact ⟨this.1.trans step.1, this.2.trans step.2⟩

/-- Folding the catalog loop over a duplicate-free batch containing a record:
its entry's rate comes from the "previous" binding at the start of the call,
and the record ends up as the new "previous". -/
theorem fold_lookup_mem (now last : ℚ) (us : List ProjectionStatus)
    (acc : List (String × Projection) × List (String × ProjectionStatus))
    (r : ProjectionStatus) (hr : r ∈ us)
    (hnd : (us.map ProjectionStatus.name).Nodup) :
    (alLookup (us.foldl (Projections.updateStep now last) acc).1 r.name).map
        Projection.rate =
      some (match alLookup acc.2 r.name with
            | some prev =>
              ((r.events_processed_after_restart
                 - prev.events_processed_after_restart : ℤ) : ℚ) / (now - last)
            | none => ((alLookup acc.1 r.name).getD ({ } : Projection)).rate) ∧
    alLookup (us.foldl (Projections.updateStep now last) acc).2 r.name = some r := by
  induction us generalizing acc with
  | nil => cases hr
  | cons u rest ih =>
    have hhead : u.name ∉ rest.map ProjectionStatus.name :=
      (List.nodup_cons.mp hnd).1
    rcases List.mem_cons.mp hr with rfl | hmem
    · have hrest : ∀ v ∈ rest, v.name ≠ r.name := by
        intro v hv heq
        exact hhead (heq ▸ List.mem_map_of_mem ProjectionStatus.name hv)
      have hfold := fold_lookup_ne now last rest
        (Projections.updateStep now last acc r) r.name hrest
      have hstep := updateStep_lookup_self now last acc r
      rw [List.foldl_cons]
      exact ⟨(congrArg (Option.map Projection.rate) hfold.1).trans hstep.1,
             hfold.2.trans hstep.2⟩
    · have hne : u.name ≠ r.name := by
        intro heq
        exact hhead (heq ▸ List.mem_map_of_mem ProjectionStatus.name hmem)
      have hstep := updateStep_lookup_ne now last acc u r.name hne
      rw [List.foldl_cons]
      have := ih (Projections.updateStep now last acc u) hmem
        (List.nodup_cons.mp hnd).2
      rw [hstep.1, hstep.2] at this
      exact this

/-- C8: over two engine calls at times `t1 < t2` whose duplicate-free
batches both carry a record of the same projection name, the second call
stores rate `(secondCount − firstCount) / (t2 − t1)` for that name, while
the first call (from a fresh engine) leaves the name's rate at its default
`0` — no defined rate before two consecutive snapshots. -/
theorem projections_rate_two_snapshots
    (t1 t2 : ℚ) (u1 u2 : List ProjectionStatus) (r1 r2 : ProjectionStatus)
    (hname : r2.name = r1.name)
    (h1 : r1 ∈ u1) (hnd1 : (u1.map ProjectionStatus.name).Nodup)
    (h2 : r2 ∈ u2) (hnd2 : (u2.map ProjectionStatus.name).Nodup)
    (_ht : t1 < t2) :
    (alLookup (projInit.update t1 u1).inner r1.name).map Projection.rate = some 0 ∧
    (alLookup ((projInit.update t1 u1).update t2 u2).inner r2.name).map
        Projection.rate =
      some (((r2.events_processed_after_restart
               - r1.events_processed_after_restart : ℤ) : ℚ) / (t2 - t1)) := by
  have first := fold_lookup_mem t1 t1 u1 (projInit.inner, projInit.previous) r1 h1 hnd1
  have hprev0 : alLookup projInit.previous r1.name = none := rfl
  have hinner0 : alLookup projInit.inner r1.name = none := rfl
  rw [hprev0, hinner0] at first
  constructor
  · exact first.1
  · have second := fold_lookup_mem t2 t1 u2
      ((projInit.update t1 u1).inner, (projInit.update t1 u1).previous) r2 h2 hnd2
    have hprev1 : alLookup (projInit.update t1 u1).previous r2.name = some r1 := by
      rw [hname]
      exact first.2
    rw [hprev1] at second
    exact second.1

/-- C8 witness for `projections_rate_two_snapshots`: snapshots with 10 then
30 events processed, taken at times 0 and 2, give rate `(30 − 10) / 2 = 10`;
the first call's rate is the default `0`. -/
theorem projections_rate_two_snapshots_witness :
    (alLookup (projInit.update 0 [projStatusA]).inner "by-cat").map
        Projection.rate = some 0 ∧
    (alLookup ((projInit.update 0 [projStatusA]).update 2 [projStatusB]).inner
        "by-cat").map Projection.rate = some 10 := by
  have h := projections_rate_two_snapshots 0 2 [projStatusA] [projStatusB]
    projStatusA projStatusB rfl (List.mem_singleton_self _) (by simp)
    (List.mem_singleton_self _) (by simp) (by norm_num)
  have hname : projStatusA.name = "by-cat" := rfl
  have hname2 : projStatusB.name = "by-cat" := rfl
  rw [hname, hname2] at h
  refine ⟨h.1, h.2.trans ?_⟩
  norm_num [projStatusA, projStatusB]

/-- `Monitoring.bytesStep` pushes exactly one bytes-written sample and
touches no rolling window besides `bytes_written`. -/
theorem bytesStep_fields (s : Monitoring) (st : Statistics) :
    (Monitoring.bytesStep s st).cpu_load = s.cpu_load ∧
    (Monitoring.bytesStep s st).writer_checkpoints = s.writer_checkpoints ∧
    (Monitoring.bytesStep s st).increment = s.increment ∧
    (Monitoring.bytesStep s st).bytes_written = s.bytes_written ++ [bytesSample s st] := by
  obtain ⟨inc, le, lw, wc, cpu, bw, ld, oos, tc, el, nl, fm, un, dr, sv, lbw⟩ := s
  simp only [Monitoring.bytesStep, bytesSample]
  rcases lbw with _ | lbv <;> exact ⟨rfl, rfl, rfl, rfl⟩

/-- `Monitoring.leaderStep` only moves the leader/election/divergence
bookkeeping: every rolling window and the logical clock are untouched. -/
theorem leaderStep_fields (s : Monitoring) (g : List MemberInfo) :
    (Monitoring.leaderStep s g).cpu_load = s.cpu_load ∧
    (Monitoring.leaderStep s g).writer_checkpoints = s.writer_checkpoints ∧
    (Monitoring.leaderStep s g).increment = s.increment ∧
    (Monitoring.leaderStep s g).bytes_written = s.bytes_written := by
  obtain ⟨inc, le, lw, wc, cpu, bw, ld, oos, tc, el, nl, fm, un, dr, sv, lbw⟩ := s
  simp only [Monitoring.leaderStep]
  rcases hfl : find_leader g with _ | l
  · exact ⟨rfl, rfl, rfl, rfl⟩
  · rcases le with _ | lev <;>
      rcases lw with _ | lwv <;>
      dsimp only <;>
      (try split_ifs) <;>
      (try dsimp only) <;>
      (try split_ifs) <;>
      exact ⟨rfl, rfl, rfl, rfl⟩

/-- One `Monitoring::update` call: each rolling window is the old window
plus one pushed sample, with the head (the oldest entry) removed exactly
when the pushed window has reached `GRAPH_TIME_LIMIT` entries; the
writer-checkpoint history is never touched by `update`. -/
theorem monitoring_update_windows (s : Monitoring) (st : Statistics)
    (g : List MemberInfo) :
    (s.update st g).cpu_load =
      (if (s.cpu_load ++ [((s.increment : ℚ), st.proc_cpu)]).length ≥ GRAPH_TIME_LIMIT
       then (s.cpu_load ++ [((s.increment : ℚ), st.proc_cpu)]).drop 1
       else s.cpu_load ++ [((s.increment : ℚ), st.proc_cpu)]) ∧
    (s.update st g).bytes_written =
      (if (s.bytes_written ++ [bytesSample s st]).length ≥ GRAPH_TIME_LIMIT
       then (s.bytes_written ++ [bytesSample s st]).drop 1
       else s.bytes_written ++ [bytesSample s st]) ∧
    (s.update st g).writer_checkpoints = s.writer_checkpoints := by
  obtain ⟨h1c, h1w, h1i, h1b⟩ := bytesStep_fields { s with
    cpu_load := s.cpu_load ++ [((s.increment : ℚ), st.proc_cpu)]
    free_mem := (st.free_mem : ℚ) / 1073741824
    unresponsive_nodes := (g.filter (fun (m : MemberInfo) => !m.is_alive)).length
    drive := st.drive } st
  obtain ⟨h2c, h2w, h2i, h2b⟩ := leaderStep_fields (Monitoring.bytesStep { s with
    cpu_load := s.cpu_load ++ [((s.increment : ℚ), st.proc_cpu)]
    free_mem := (st.free_mem : ℚ) / 1073741824
    unresponsive_nodes := (g.filter (fun (m : MemberInfo) => !m.is_alive)).length
    drive := st.drive } st) g
  have hsample : bytesSample { s with
      cpu_load := s.cpu_load ++ [((s.increment : ℚ), st.proc_cpu)]
      free_mem := (st.free_mem : ℚ) / 1073741824
      unresponsive_nodes := (g.filter (fun (m : MemberInfo) => !m.is_alive)).length
      drive := st.drive } st = bytesSample s st := rfl
  rw [hsample] at h1b
  refine ⟨?_, ?_, ?_⟩ <;>
    simp only [Monitoring.update, apply_ite Monitoring.cpu_load,
      apply_ite Monitoring.bytes_written, apply_ite Monitoring.writer_checkpoints] <;>
    simp [h1c, h1w, h1i, h1b, h2c, h2w, h2i, h2b]

/-- Pushing one sample and evicting the head once the window has reached
`GRAPH_TIME_LIMIT` keeps the window under `GRAPH_TIME_LIMIT`. -/
theorem evict_length_le (l : List (ℚ × ℚ)) (x : ℚ × ℚ) (h : l.length ≤ 19) :
    (if (l ++ [x]).length ≥ GRAPH_TIME_LIMIT then (l ++ [x]).drop 1 else l ++ [x]).length
      ≤ 19 := by
  simp only [GRAPH_TIME_LIMIT, ge_iff_le] at *
  split_ifs with hif <;>
    simp only [List.length_drop, List.length_append, List.length_singleton] at hif ⊢ <;>
    omega

/-- C9: over every sequence of `Monitoring::update` calls from a fresh
state, the CPU-load, bytes-written and writer-checkpoint windows stay within
20 entries, and a single update only ever appends the new sample and drops
from the front — the evicted entry is always the oldest (the result is a
suffix of the old window plus the new sample); the writer-checkpoint history
is never modified by `update` at all. -/
theorem monitoring_windows_bounded_fifo :
    (∀ inputs : List (Statistics × List MemberInfo),
      (inputs.foldl (fun s p => Monitoring.update s p.1 p.2) monInit).cpu_load.length
          ≤ 20 ∧
      (inputs.foldl (fun s p => Monitoring.update s p.1 p.2) monInit).bytes_written.length
          ≤ 20 ∧
      (inputs.foldl (fun s p =>
          Monitoring.update s p.1 p.2) monInit).writer_checkpoints.length ≤ 20) ∧
    (∀ (s : Monitoring) (st : Statistics) (g : List MemberInfo),
      List.IsSuffix (s.update st g).cpu_load
        (s.cpu_load ++ [((s.increment : ℚ), st.proc_cpu)]) ∧
      List.IsSuffix (s.update st g).bytes_written
        (s.bytes_written ++ [bytesSample s st]) ∧
      (s.update st g).writer_checkpoints = s.writer_checkpoints) := by
  constructor
  · intro inputs
    have key : ∀ (inputs : List (Statistics × List MemberInfo)) (s : Monitoring),
        s.cpu_load.length ≤ 19 → s.bytes_written.length ≤ 19 →
        s.writer_checkpoints.length ≤ 19 →
        (inputs.foldl (fun s p => Monitoring.update s p.1 p.2) s).cpu_load.length ≤ 19 ∧
        (inputs.foldl (fun s p =>
            Monitoring.update s p.1 p.2) s).bytes_written.length ≤ 19 ∧
        (inputs.foldl (fun s p =>
            Monitoring.update s p.1 p.2) s).writer_checkpoints.length ≤ 19 := by
      intro inputs
      induction inputs with
      | nil => intro s h1 h2 h3; exact ⟨h1, h2, h3⟩
      | cons p rest ih =>
        intro s h1 h2 h3
        obtain ⟨hc, hb, hw⟩ := monitoring_update_windows s p.1 p.2
        refine ih (s.update p.1 p.2) ?_ ?_ ?_
        · rw [hc]; exact evict_length_le _ _ h1
        · rw [hb]; exact evict_length_le _ _ h2
        · rw [hw]; exact h3
    have h := key inputs monInit (by norm_num [monInit]) (by norm_num [monInit])
      (by norm_num [monInit])
    exact ⟨h.1.trans (by norm_num), h.2.1.trans (by norm_num), h.2.2.trans (by norm_num)⟩
  · intro s st g
    obtain ⟨hc, hb, hw⟩ := monitoring_update_windows s st g
    refine ⟨?_, ?_, hw⟩
    · rw [hc]
      split_ifs
      · exact List.drop_suffix _ _
      · exact List.suffix_refl _
    · rw [hb]
      split_ifs
      · exact List.drop_suffix _ _
      · exact List.suffix_refl _

end EsdbTui
